import Mathlib

/-!
Verification of the Network Control-Plane Reconciliation Core of the
vmware-nsx plugin (file src/vmware_nsx/plugins/common_v3/plugin.py).

The Python code is shallowly embedded: pure decision procedures become Lean
functions, Python dictionaries of optional attributes become structures of
Option fields, Python truthiness of an optional string / int / list is made
explicit through truthyStr / truthyNat / truthyList, raised exceptions become
Except errors, and the stateful DHCP-enable saga becomes an explicit
state-passing function over a record of local-store and backend resources.
-/

namespace VmwareNsx

/-- Python truthiness of an optional string value: None and the empty string
are falsy, every other string is truthy. -/
def truthyStr : Option String → Bool
  | none => false
  | some s => !s.isEmpty

/-- Python truthiness of an optional integer value: None and 0 are falsy. -/
def truthyNat : Option Nat → Bool
  | none => false
  | some n => n != 0

/-- Python truthiness of an optional list value: None and the empty list are
falsy. -/
def truthyList {α : Type} : Option (List α) → Bool
  | none => false
  | some l => !l.isEmpty

/-!
## Gateway Transition Planner

Embedding of NsxPluginV3Base._get_update_router_gw_actions
(src/vmware_nsx/plugins/common_v3/plugin.py lines 949-1027).  The Python
function returns a dict of truthy/falsy action values; each field below is the
truthiness of the corresponding dict entry.  org_tier0_uuid, orgaddr,
new_tier0_uuid and newaddr are uuid / IP strings or None; the snat flags and
lb_exist / fw_exist are booleans.
-/

/-- The action-flag dictionary returned by _get_update_router_gw_actions. -/
structure GwActions where
  remove_router_link_port : Bool
  remove_snat_rules : Bool
  remove_no_dnat_rules : Bool
  revocate_bgp_announce : Bool
  add_router_link_port : Bool
  add_snat_rules : Bool
  add_no_dnat_rules : Bool
  bgp_announce : Bool
  advertise_route_nat_flag : Bool
  advertise_route_connected_flag : Bool
  add_service_router : Bool
  remove_service_router : Bool
deriving Repr, DecidableEq

/-- Embedding of _get_update_router_gw_actions.  Python value inequality
(for example newaddr != orgaddr, where either side may be None) is Option
equality; Python `x and y`, `x or y`, `not x` on the optional strings act on
their truthiness. -/
def get_update_router_gw_actions
    (org_tier0_uuid orgaddr : Option String) (org_enable_snat : Bool)
    (new_tier0_uuid newaddr : Option String) (new_enable_snat : Bool)
    (lb_exist fw_exist : Bool) : GwActions :=
  let real_new_enable_snat := new_enable_snat && truthyStr newaddr
  let real_org_enable_snat := org_enable_snat && truthyStr orgaddr
  { remove_router_link_port :=
      truthyStr org_tier0_uuid &&
      (!truthyStr new_tier0_uuid || decide (org_tier0_uuid ≠ new_tier0_uuid))
    remove_snat_rules :=
      org_enable_snat && truthyStr orgaddr &&
      (decide (newaddr ≠ orgaddr) || !new_enable_snat)
    remove_no_dnat_rules :=
      truthyStr orgaddr && org_enable_snat &&
      (!truthyStr newaddr || !new_enable_snat)
    revocate_bgp_announce :=
      !org_enable_snat && truthyStr org_tier0_uuid &&
      (decide (new_tier0_uuid ≠ org_tier0_uuid) || new_enable_snat)
    add_router_link_port :=
      truthyStr new_tier0_uuid &&
      (!truthyStr org_tier0_uuid || decide (org_tier0_uuid ≠ new_tier0_uuid))
    add_snat_rules :=
      new_enable_snat && truthyStr newaddr &&
      (decide (newaddr ≠ orgaddr) || !org_enable_snat)
    add_no_dnat_rules :=
      new_enable_snat && truthyStr newaddr &&
      (!truthyStr orgaddr || !org_enable_snat)
    bgp_announce :=
      !new_enable_snat && truthyStr new_tier0_uuid &&
      (decide (new_tier0_uuid ≠ org_tier0_uuid) || !org_enable_snat)
    advertise_route_nat_flag := new_enable_snat
    advertise_route_connected_flag := !new_enable_snat
    add_service_router :=
      ((real_new_enable_snat && !real_org_enable_snat) ||
       (real_new_enable_snat && !truthyStr orgaddr && truthyStr newaddr)) &&
      !(fw_exist || lb_exist)
    remove_service_router :=
      ((!real_new_enable_snat && real_org_enable_snat) ||
       (truthyStr orgaddr && !truthyStr newaddr)) &&
      !(fw_exist || lb_exist) }

/-!
## Segment Allocator

Embedding of NsxPluginV3Base._generate_segment_id
(src/vmware_nsx/plugins/common_v3/plugin.py lines 661-679) and of the vlan
branch of _validate_provider_create (lines 681-832).  The Binding Store is a
list of NetworkBinding rows; nsx_db.get_network_bindings_by_phy_uuid and
get_network_bindings_by_vlanid_and_physical_net are its query functions.
-/

/-- MIN_VLAN_TAG of neutron_lib.constants. -/
def MIN_VLAN_TAG : Nat := 1

/-- MAX_VLAN_TAG of neutron_lib.constants. -/
def MAX_VLAN_TAG : Nat := 4094

/-- A NetworkBinding row of the Binding Store, restricted to the fields the
allocator and the vlan validation read (phy_uuid and vlan_id). -/
structure NetworkBinding where
  phy_uuid : String
  vlan_id : Nat
deriving Repr, DecidableEq

/-- nsx_db.get_network_bindings_by_phy_uuid, projected onto the vlan ids that
_generate_segment_id reads from the returned rows. -/
def get_network_bindings_by_phy_uuid
    (store : List NetworkBinding) (physical_network : String) : List Nat :=
  (store.filter (fun b => b.phy_uuid == physical_network)).map
    (fun b => b.vlan_id)

/-- nsx_db.get_network_bindings_by_vlanid_and_physical_net. -/
def get_network_bindings_by_vlanid_and_physical_net
    (store : List NetworkBinding) (vlan : Nat) (physical_network : String) :
    List NetworkBinding :=
  store.filter (fun b => b.phy_uuid == physical_network && b.vlan_id == vlan)

/-- The candidate id set of _generate_segment_id: the union of the configured
ranges (each range (lo, hi) contributing set(range(lo, hi + 1))), or the full
legal range [MIN_VLAN_TAG, MAX_VLAN_TAG] when no ranges are configured for
the physical network. -/
def vlanCandidateIds (vlan_ranges : List (Nat × Nat)) : Finset Nat :=
  if vlan_ranges.isEmpty then Finset.Icc MIN_VLAN_TAG MAX_VLAN_TAG
  else vlan_ranges.foldl (fun s r => s ∪ Finset.Icc r.1 r.2) ∅

/-- used_ids_in_range of _generate_segment_id: the bound vlan ids of the
physical network that fall inside the candidate set. -/
def usedIdsInRange (bound_ids : List Nat) (vlan_ids : Finset Nat) :
    Finset Nat :=
  (bound_ids.filter (fun b => decide (b ∈ vlan_ids))).toFinset

/-- free_ids of _generate_segment_id: the symmetric difference
vlan_ids ^ used_ids_in_range, as written in the source (it equals the plain
difference because used_ids_in_range is a subset of vlan_ids). -/
def freeVlanIds (bound_ids : List Nat) (vlan_ranges : List (Nat × Nat)) :
    Finset Nat :=
  let cand := vlanCandidateIds vlan_ranges
  let used := usedIdsInRange bound_ids cand
  (cand \ used) ∪ (used \ cand)

/-- Enumeration of the candidate ids as a list, mirroring the set
construction of vlanCandidateIds range by range (it enumerates exactly the
elements of vlanCandidateIds, see mem_vlanCandidateScan). -/
def vlanCandidateScan (vlan_ranges : List (Nat × Nat)) : List Nat :=
  if vlan_ranges.isEmpty then
    List.range' MIN_VLAN_TAG (MAX_VLAN_TAG + 1 - MIN_VLAN_TAG)
  else
    vlan_ranges.foldl (fun l r => l ++ List.range' r.1 (r.2 + 1 - r.1)) []

/-- Embedding of _generate_segment_id.  The source takes free_ids[0] of
list(set(...)), whose element order CPython leaves unspecified; the embedding
determinizes the choice to the first candidate lying in the free set (every
theorem about the returned tag only uses its membership in the free set,
which holds for any choice).  none models the raised NoNetworkAvailable. -/
def generate_segment_id (bound_ids : List Nat)
    (vlan_ranges : List (Nat × Nat)) : Option Nat :=
  (vlanCandidateScan vlan_ranges).find?
    (fun v => decide (v ∈ freeVlanIds bound_ids vlan_ranges))

/-!
## Binding Planner, vlan branch

Embedding of the decisions _validate_provider_create takes for a
net_type = vlan request (lines 706-755 together with the err_msg raise at
lines 819-820).  The later transport-zone existence / switch-mode validation
consults only the Backend Client collaborator and is outside this model.
-/

/-- The typed errors the vlan branch can produce: the transparent-vlan
conflict and the out-of-range message both end in the err_msg raise of
InvalidInput, VlanIdInUse and NoNetworkAvailable are raised directly. -/
inductive ProviderError where
  | transparentConflict
  | outOfRange
  | vlanIdInUse
  | noNetworkAvailable
deriving Repr, DecidableEq

/-- The data the vlan branch resolves on success: the transport zone uuid,
the local vlan_id value, and the segmentation_id held by the request dict
after the call (which _generate_segment_id overwrites on allocation). -/
structure VlanBindingPlan where
  physical_net : String
  vlan_id : Option Nat
  seg_id_after : Option Nat
deriving Repr, DecidableEq

/-- Decidable equality for Except results, used to evaluate the embedded
validators on concrete inputs. -/
instance exceptDecEq {ε α : Type} [DecidableEq ε] [DecidableEq α] :
    DecidableEq (Except ε α)
  | .error a, .error b =>
      if h : a = b then .isTrue (by rw [h])
      else .isFalse (by intro hc; cases hc; exact h rfl)
  | .error _, .ok _ => .isFalse (by intro hc; cases hc)
  | .ok _, .error _ => .isFalse (by intro hc; cases hc)
  | .ok a, .ok b =>
      if h : a = b then .isTrue (by rw [h])
      else .isFalse (by intro hc; cases hc; exact h rfl)

/-- plugin_utils.is_valid_vlan_tag of neutron_lib. -/
def is_valid_vlan_tag (vlan : Nat) : Bool :=
  MIN_VLAN_TAG ≤ vlan && vlan ≤ MAX_VLAN_TAG

/-- self._network_vlans.get(physical_network, []). -/
def lookupVlanRanges (network_vlans : List (String × List (Nat × Nat)))
    (physical_network : String) : List (Nat × Nat) :=
  match network_vlans.find? (fun e => e.1 == physical_network) with
  | some e => e.2
  | none => []

/-- Embedding of _validate_provider_create for a net_type = vlan request:
seg_id is the request segmentation_id (none when not attr_set), phys the
request physical_network (none when not attr_set).  Python `if vlan_id and
transparent_vlan` and `if not vlan_id` test truthiness, so an explicit 0
behaves like an absent id. -/
def validate_provider_create_vlan (seg_id : Option Nat)
    (phys : Option String) (default_vlan_tz : String)
    (network_vlans : List (String × List (Nat × Nat)))
    (store : List NetworkBinding) (transparent_vlan : Bool) :
    Except ProviderError VlanBindingPlan :=
  if truthyNat seg_id && transparent_vlan then
    .error .transparentConflict
  else
    let physical_net := phys.getD default_vlan_tz
    if !transparent_vlan then
      if !truthyNat seg_id then
        match generate_segment_id
            (get_network_bindings_by_phy_uuid store physical_net)
            (lookupVlanRanges network_vlans physical_net) with
        | none => .error .noNetworkAvailable
        | some tag => .ok ⟨physical_net, some tag, some tag⟩
      else
        let v := seg_id.getD 0
        if !is_valid_vlan_tag v then
          .error .outOfRange
        else if !(get_network_bindings_by_vlanid_and_physical_net
            store v physical_net).isEmpty then
          .error .vlanIdInUse
        else
          .ok ⟨physical_net, seg_id, seg_id⟩
    else
      .ok ⟨physical_net, seg_id, seg_id⟩

/-!
## Port Invariant Validator

Embedding of _validate_create_port (lines 395-417), _validate_update_port
(lines 491-520), the assert helpers they call (lines 374-489) and the
compensating rollback _revert_neutron_port_update (lines 893-912).  A port
request dict becomes a structure of Option fields (none = key absent or not
attr_set).  Collaborators living outside this file (_network_is_external,
_validate_qos_policy_id, _validate_max_ips_per_port) are oracle booleans.
-/

/-- neutron_lib l3 constant. -/
def DEVICE_OWNER_ROUTER_INTF : String := "network:router_interface"

/-- neutron_lib l3 constant. -/
def DEVICE_OWNER_ROUTER_GW : String := "network:router_gateway"

/-- neutron_lib constant. -/
def DEVICE_OWNER_DHCP : String := "network:dhcp"

/-- neutron_lib constant. -/
def DEVICE_OWNER_LOADBALANCERV2 : String := "neutron:LOADBALANCERV2"

/-- neutron_lib constant DEVICE_OWNER_COMPUTE_PREFIX. -/
def DEVICE_OWNER_COMPUTE_PFX : String := "compute:"

/-- neutron_lib constant DEVICE_OWNER_NETWORK_PREFIX. -/
def DEVICE_OWNER_NETWORK_PFX : String := "network:"

/-- Modelled from the repository constant ipsec_utils.VPN_PORT_OWNER, whose
defining module is not under src; no theorem depends on its exact value. -/
def VPN_PORT_OWNER : String := "vpnservice"

/-- Python str.startswith, computed on the character lists underlying the
strings. -/
def strStartsWith (s p : String) : Bool :=
  p.data.isPrefixOf s.data

/-- neutron_lib.utils.net.is_port_trusted (external library): exactly the
device owners beginning with DEVICE_OWNER_NETWORK_PREFIX (router-, DHCP- and
floating-ip-owned ports) are trusted; neutron:-owned service ports are
not. -/
def is_port_trusted (device_owner : String) : Bool :=
  strStartsWith device_owner DEVICE_OWNER_NETWORK_PFX

/-- The port attributes the validators read; none models an absent key or a
not-attr_set value of the request dict. -/
structure PortData where
  device_owner : Option String
  port_security_enabled : Option Bool
  mac_learning_enabled : Option Bool
  qos_policy_id : Option String
  fixed_ips : Option (List String)
  allowed_address_pairs : Option (List String)
  admin_state_up : Option Bool
deriving Repr, DecidableEq

/-- The validation errors of the port validators: InvalidInput raises and
QoSOnExternalNet. -/
inductive PortErr where
  | invalidInput
  | qosOnExternalNet
deriving Repr, DecidableEq

/-- Whether an Except result is an error. -/
def isError {ε α : Type} : Except ε α → Bool
  | .error _ => true
  | .ok _ => false

/-- Sequencing of two checks: the second runs only when the first did not
raise. -/
def exceptSeq {ε : Type} (a b : Except ε Unit) : Except ε Unit :=
  match a with
  | .error e => .error e
  | .ok _ => b

/-- _assert_on_illegal_port_with_qos (lines 374-382). -/
def assert_on_illegal_port_with_qos (device_owner : Option String) :
    Except PortErr Unit :=
  if device_owner == some DEVICE_OWNER_ROUTER_INTF ||
     device_owner == some DEVICE_OWNER_DHCP then
    .error .invalidInput
  else .ok ()

/-- _assert_on_external_net_with_compute (lines 384-393). -/
def assert_on_external_net_with_compute (device_owner : Option String) :
    Except PortErr Unit :=
  match device_owner with
  | some d =>
      if strStartsWith d DEVICE_OWNER_COMPUTE_PFX then .error .invalidInput
      else .ok ()
  | none => .ok ()

/-- _assert_on_vpn_port_change (lines 419-422), applied to the original
port. -/
def assert_on_vpn_port_change (orig_device_owner : String) :
    Except PortErr Unit :=
  if orig_device_owner == VPN_PORT_OWNER then .error .invalidInput
  else .ok ()

/-- _assert_on_lb_port_fixed_ip_change (lines 424-428). -/
def assert_on_lb_port_fixed_ip_change (pd : PortData)
    (orig_device_owner : String) : Except PortErr Unit :=
  if orig_device_owner == DEVICE_OWNER_LOADBALANCERV2 &&
     truthyList pd.fixed_ips then
    .error .invalidInput
  else .ok ()

/-- _assert_on_device_owner_change (lines 430-459). -/
def assert_on_device_owner_change (pd : PortData)
    (orig_device_owner : String) : Except PortErr Unit :=
  if orig_device_owner == DEVICE_OWNER_LOADBALANCERV2 &&
     truthyList pd.allowed_address_pairs then
    .error .invalidInput
  else
    match pd.device_owner with
    | none => .ok ()
    | some new_dev_own =>
        if new_dev_own == orig_device_owner then .ok ()
        else if (strStartsWith orig_device_owner DEVICE_OWNER_COMPUTE_PFX &&
                 strStartsWith new_dev_own DEVICE_OWNER_NETWORK_PFX) ||
                (strStartsWith orig_device_owner DEVICE_OWNER_NETWORK_PFX &&
                 strStartsWith new_dev_own DEVICE_OWNER_COMPUTE_PFX) then
          .error .invalidInput
        else if orig_device_owner == DEVICE_OWNER_DHCP then
          .error .invalidInput
        else .ok ()

/-- _assert_on_port_admin_state (lines 481-489). -/
def assert_on_port_admin_state (admin_state_up : Option Bool)
    (device_owner : Option String) : Except PortErr Unit :=
  if (device_owner == some DEVICE_OWNER_ROUTER_INTF ||
      device_owner == some DEVICE_OWNER_ROUTER_GW) &&
     admin_state_up == some false then
    .error .invalidInput
  else .ok ()

/-- _assert_on_port_sec_change (lines 461-479): a trusted device owner may
neither request port_security_enabled=True nor mac_learning_enabled=True. -/
def assert_on_port_sec_change (pd : PortData) (device_owner : String) :
    Except PortErr Unit :=
  if is_port_trusted device_owner then
    if pd.port_security_enabled == some true then .error .invalidInput
    else if pd.mac_learning_enabled == some true then .error .invalidInput
    else .ok ()
  else .ok ()

/-- Embedding of _validate_update_port (lines 491-520).  is_external_net is
the Binding Store lookup _network_is_external, qos_policy_ok models
_validate_qos_policy_id succeeding and max_ips_ok models
_validate_max_ips_per_port succeeding.  The effective device owner is the
updated one when the key is present, the original one otherwise. -/
def validate_update_port (is_external_net qos_policy_ok max_ips_ok : Bool)
    (orig_device_owner : String) (pd : PortData) : Except PortErr Unit :=
  let device_owner := pd.device_owner.getD orig_device_owner
  exceptSeq
    (if pd.qos_policy_id.isSome then
      exceptSeq (if !qos_policy_ok then .error .invalidInput else .ok ())
        (exceptSeq
          (if is_external_net then .error .qosOnExternalNet else .ok ())
          (assert_on_illegal_port_with_qos (some device_owner)))
    else .ok ())
    (exceptSeq
      (if is_external_net then
        assert_on_external_net_with_compute pd.device_owner
      else .ok ())
      (exceptSeq (assert_on_device_owner_change pd orig_device_owner)
        (exceptSeq
          (assert_on_port_admin_state pd.admin_state_up (some device_owner))
          (exceptSeq (assert_on_port_sec_change pd device_owner)
            (exceptSeq (if !max_ips_ok then .error .invalidInput else .ok ())
              (exceptSeq (assert_on_vpn_port_change orig_device_owner)
                (assert_on_lb_port_fixed_ip_change pd
                  orig_device_owner)))))))

/-- Embedding of _validate_create_port (lines 395-417) with the same oracle
parameters.  It contains no trusted-port port-security or mac-learning
check. -/
def validate_create_port (is_external_net qos_policy_ok max_ips_ok : Bool)
    (pd : PortData) : Except PortErr Unit :=
  exceptSeq (if !max_ips_ok then .error .invalidInput else .ok ())
    (exceptSeq
      (if pd.qos_policy_id.isSome then
        exceptSeq (if !qos_policy_ok then .error .invalidInput else .ok ())
          (exceptSeq (assert_on_illegal_port_with_qos pd.device_owner)
            (if is_external_net then .error .qosOnExternalNet else .ok ()))
      else .ok ())
      (exceptSeq
        (if is_external_net then
          assert_on_external_net_with_compute pd.device_owner
        else .ok ())
        (assert_on_port_admin_state pd.admin_state_up pd.device_owner)))

/-- The store operations _revert_neutron_port_update can perform, in
order. -/
inductive RevertAction where
  | updatePortToOriginal
  | deleteAllowedAddressPairs
  | createAllowedAddressPairs (pairs : List String)
  | updateSecurityGroupsOnPort
deriving Repr, DecidableEq

/-- Embedding of _revert_neutron_port_update (lines 893-912) as the ordered
trace of store operations it performs: the port attributes are always
restored; the address pairs only under `if port_security`; the security
group bindings only under `if sec_grp_updated`. -/
def revert_neutron_port_update (port_security sec_grp_updated : Bool)
    (orig_pairs updated_pairs : Option (List String)) : List RevertAction :=
  [RevertAction.updatePortToOriginal] ++
  (if port_security then
    (if orig_pairs ≠ updated_pairs then
      [RevertAction.deleteAllowedAddressPairs]
    else []) ++
    (if truthyList orig_pairs then
      [RevertAction.createAllowedAddressPairs (orig_pairs.getD [])]
    else [])
  else []) ++
  (if sec_grp_updated then [RevertAction.updateSecurityGroupsOnPort] else [])

/-!
## DHCP Provisioning Saga

Embedding of _enable_native_dhcp (lines 1117-1220), _disable_native_dhcp
(lines 1222-1269) and _cleanup_port (lines 1271-1276) as explicit state
passing.  The state collects the id sets the saga touches: the backend DHCP
servers and logical ports, the local neutron ports, and the local store
mapping rows (neutron-port to nsx-port, network to DHCP service binding,
per-port DHCP bindings).  The failure points of the saga are controlled by a
DhcpFail record: each create or mapping call either succeeds and returns the
backend-assigned id given as an argument, or raises.  The delete calls run
by the compensation paths (inside save_and_reraise_exception) are modelled
as succeeding, which is the scenario the claims describe; the
_create_port_preprocess_security call on the fresh DHCP port is likewise
taken to succeed, as it precedes the two try blocks the claims are about. -/

/-- The local-store rows and backend resources the saga touches. -/
structure DhcpSt where
  dhcpServers : List String
  logicalPorts : List String
  neutronPorts : List String
  portMappings : List (String × String)
  serviceBindings : List (String × String × String)
  dhcpBindings : List (String × String)
deriving Repr, DecidableEq

/-- nsx_db.get_nsx_service_binding for SERVICE_DHCP: the (port_id,
nsx_service_id) of the first binding row of the network, if any. -/
def get_nsx_service_binding (st : DhcpSt) (network_id : String) :
    Option (String × String) :=
  (st.serviceBindings.find? (fun b => b.1 == network_id)).map (fun b => b.2)

/-- nsx_db.get_nsx_switch_and_port_id, projected to the nsx port id. -/
def get_nsx_port_id (st : DhcpSt) (neutron_port_id : String) :
    Option String :=
  (st.portMappings.find? (fun m => m.1 == neutron_port_id)).map (fun m => m.2)

/-- _cleanup_port (lines 1271-1276): delete the neutron port, and the nsx
logical port when one is given. -/
def cleanup_port (st : DhcpSt) (port_id : String)
    (nsx_port_id : Option String) : DhcpSt :=
  { st with
    neutronPorts := st.neutronPorts.filter (fun p => p != port_id),
    logicalPorts :=
      match nsx_port_id with
      | some np => st.logicalPorts.filter (fun p => p != np)
      | none => st.logicalPorts }

/-- _disable_native_dhcp (lines 1222-1269): a no-op when the network has no
DHCP service binding; otherwise delete the DHCP port, the backend DHCP
server, and the service-binding and per-port-binding rows. -/
def disable_native_dhcp (st : DhcpSt) (network_id : String) : DhcpSt :=
  match get_nsx_service_binding st network_id with
  | none => st
  | some (port_id, service_id) =>
      let st1 := cleanup_port st port_id (get_nsx_port_id st port_id)
      let st2 := { st1 with
        dhcpServers := st1.dhcpServers.filter (fun s => s != service_id) }
      { st2 with
        serviceBindings :=
          st2.serviceBindings.filter (fun b => b.1 != network_id),
        dhcpBindings :=
          st2.dhcpBindings.filter (fun b => b.2 != service_id) }

/-- Which calls of the enable saga raise: backend DHCP-server create,
backend logical-port create, the port-mapping insert, the service-binding
insert; dhcpBindingFailIdx = some k makes the step-7 per-port loop raise
after k ports. -/
structure DhcpFail where
  serverCreateFails : Bool
  logicalPortCreateFails : Bool
  portMappingFails : Bool
  serviceBindingFails : Bool
  dhcpBindingFailIdx : Option Nat
deriving Repr, DecidableEq

/-- The errors _enable_native_dhcp propagates: NsxPluginException when the
backend network id is missing, ManagerError from the backend creates,
DBError/TimeoutError from the mapping inserts. -/
inductive DhcpErr where
  | noBackendNetwork
  | managerError
  | dbError
deriving Repr, DecidableEq

/-- The final state together with the propagated error, if any. -/
structure EnableOutcome where
  st : DhcpSt
  err : Option DhcpErr
deriving Repr, DecidableEq

/-- Embedding of _enable_native_dhcp (lines 1117-1220).  port_id, server_id
and nsx_port_id are the ids assigned by the port create and the two backend
creates; existing_ports is the snapshot of the ports on the subnet.  The
first try block compensates a ManagerError by deleting the backend DHCP
server (when already created) and the neutron port; the second try block
compensates a DB error by deleting the backend DHCP server and running
_cleanup_port on the neutron port and the nsx logical port; a failure in the
step-7 binding loop is caught and logged, so the outcome carries no
error. -/
def enable_native_dhcp (f : DhcpFail)
    (network_id port_id server_id nsx_port_id : String)
    (existing_ports : List String) (nsx_net_id : Option String)
    (st0 : DhcpSt) : EnableOutcome :=
  let st := disable_native_dhcp st0 network_id
  match nsx_net_id with
  | none => ⟨st, some .noBackendNetwork⟩
  | some _ =>
    let st := { st with neutronPorts := port_id :: st.neutronPorts }
    if f.serverCreateFails then
      ⟨{ st with
          neutronPorts := st.neutronPorts.filter (fun p => p != port_id) },
        some .managerError⟩
    else
      let st := { st with dhcpServers := server_id :: st.dhcpServers }
      if f.logicalPortCreateFails then
        ⟨{ st with
            dhcpServers := st.dhcpServers.filter (fun s => s != server_id),
            neutronPorts :=
              st.neutronPorts.filter (fun p => p != port_id) },
          some .managerError⟩
      else
        let st := { st with logicalPorts := nsx_port_id :: st.logicalPorts }
        if f.portMappingFails then
          let st := { st with
            dhcpServers := st.dhcpServers.filter (fun s => s != server_id) }
          ⟨cleanup_port st port_id (some nsx_port_id), some .dbError⟩
        else
          let st := { st with
            portMappings := (port_id, nsx_port_id) :: st.portMappings }
          if f.serviceBindingFails then
            let st := { st with
              dhcpServers :=
                st.dhcpServers.filter (fun s => s != server_id) }
            ⟨cleanup_port st port_id (some nsx_port_id), some .dbError⟩
          else
            let st := { st with
              serviceBindings :=
                (network_id, port_id, server_id) :: st.serviceBindings }
            match f.dhcpBindingFailIdx with
            | some k =>
                ⟨{ st with
                    dhcpBindings :=
                      (existing_ports.take k).map (fun p => (p, server_id))
                        ++ st.dhcpBindings },
                  none⟩
            | none =>
                ⟨{ st with
                    dhcpBindings :=
                      existing_ports.map (fun p => (p, server_id))
                        ++ st.dhcpBindings },
                  none⟩

end VmwareNsx

namespace VmwareNsx

/-- Helper: decidable inequality is symmetric at the level of decide. -/
theorem decide_ne_symm {α : Type} [DecidableEq α] (a b : α) :
    decide (b ≠ a) = decide (a ≠ b) := by
  by_cases h : a = b
  · subst h; simp
  · have h2 : b ≠ a := fun hba => h hba.symm
    simp [h, h2]

/-- C2 counterexample: planning the identity transition on the gateway state
with tier0 T0-A, address 10.0.0.5 and SNAT disabled yields bgp_announce =
true (and advertise_route_connected_flag = true), so the ActionSet of a
no-change transition does not have every flag false. -/
theorem C2_counterexample :
    (get_update_router_gw_actions
        (some "T0-A") (some "10.0.0.5") false
        (some "T0-A") (some "10.0.0.5") false
        false false).bgp_announce = true ∧
    (get_update_router_gw_actions
        (some "T0-A") (some "10.0.0.5") false
        (some "T0-A") (some "10.0.0.5") false
        false false).advertise_route_connected_flag = true := by
  constructor <;> decide

/-- C2 (amended): planning a transition from a gateway state to itself
yields an ActionSet in which every add/remove/revoke flag is false, except
that bgp_announce is true exactly when SNAT is disabled and a tier0 is
present, advertise_route_nat_flag equals the (unchanged) SNAT flag and
advertise_route_connected_flag equals its negation. -/
theorem C2_gw_identity_transition
    (tier0 addr : Option String) (snat lb_exist fw_exist : Bool) :
    get_update_router_gw_actions tier0 addr snat tier0 addr snat
        lb_exist fw_exist =
      { remove_router_link_port := false
        remove_snat_rules := false
        remove_no_dnat_rules := false
        revocate_bgp_announce := false
        add_router_link_port := false
        add_snat_rules := false
        add_no_dnat_rules := false
        bgp_announce := !snat && truthyStr tier0
        advertise_route_nat_flag := snat
        advertise_route_connected_flag := !snat
        add_service_router := false
        remove_service_router := false } := by
  have ht : decide (tier0 ≠ tier0) = false := by simp
  have ha : decide (addr ≠ addr) = false := by simp
  simp only [get_update_router_gw_actions, ht, ha]
  generalize truthyStr tier0 = T
  generalize truthyStr addr = A
  revert T A snat lb_exist fw_exist
  decide

/-- C4 counterexample: for old = new = (tier0 T0-A, address 10.0.0.5, SNAT
disabled), the BGP pair is not inverse under swapping old and new: the
forward run has revocate_bgp_announce = false while the reverse run (the
same arguments, since old = new) has bgp_announce = true. -/
theorem C4_counterexample :
    (get_update_router_gw_actions
        (some "T0-A") (some "10.0.0.5") false
        (some "T0-A") (some "10.0.0.5") false
        false false).revocate_bgp_announce = false ∧
    (get_update_router_gw_actions
        (some "T0-A") (some "10.0.0.5") false
        (some "T0-A") (some "10.0.0.5") false
        false false).bgp_announce = true := by
  constructor <;> decide

/-- C4 (amended): for every pair of gateway states, the forward and the
swapped run of the planner are logically inverse for the router-link-port,
SNAT-rule and No-DNAT-rule flag pairs (Add of one run equals Remove of the
other); the BGP announce/revoke pair and the service-router pair do not
satisfy this round-trip law. -/
theorem C4_gw_round_trip_partial_inverse
    (org_tier0 orgaddr : Option String) (org_snat : Bool)
    (new_tier0 newaddr : Option String) (new_snat : Bool)
    (lb_exist fw_exist : Bool) :
    (get_update_router_gw_actions org_tier0 orgaddr org_snat new_tier0
        newaddr new_snat lb_exist fw_exist).remove_router_link_port =
      (get_update_router_gw_actions new_tier0 newaddr new_snat org_tier0
        orgaddr org_snat lb_exist fw_exist).add_router_link_port ∧
    (get_update_router_gw_actions org_tier0 orgaddr org_snat new_tier0
        newaddr new_snat lb_exist fw_exist).add_router_link_port =
      (get_update_router_gw_actions new_tier0 newaddr new_snat org_tier0
        orgaddr org_snat lb_exist fw_exist).remove_router_link_port ∧
    (get_update_router_gw_actions org_tier0 orgaddr org_snat new_tier0
        newaddr new_snat lb_exist fw_exist).remove_snat_rules =
      (get_update_router_gw_actions new_tier0 newaddr new_snat org_tier0
        orgaddr org_snat lb_exist fw_exist).add_snat_rules ∧
    (get_update_router_gw_actions org_tier0 orgaddr org_snat new_tier0
        newaddr new_snat lb_exist fw_exist).add_snat_rules =
      (get_update_router_gw_actions new_tier0 newaddr new_snat org_tier0
        orgaddr org_snat lb_exist fw_exist).remove_snat_rules ∧
    (get_update_router_gw_actions org_tier0 orgaddr org_snat new_tier0
        newaddr new_snat lb_exist fw_exist).remove_no_dnat_rules =
      (get_update_router_gw_actions new_tier0 newaddr new_snat org_tier0
        orgaddr org_snat lb_exist fw_exist).add_no_dnat_rules ∧
    (get_update_router_gw_actions org_tier0 orgaddr org_snat new_tier0
        newaddr new_snat lb_exist fw_exist).add_no_dnat_rules =
      (get_update_router_gw_actions new_tier0 newaddr new_snat org_tier0
        orgaddr org_snat lb_exist fw_exist).remove_no_dnat_rules := by
  simp only [get_update_router_gw_actions,
    decide_ne_symm new_tier0 org_tier0, decide_ne_symm newaddr orgaddr]
  generalize truthyStr org_tier0 = TO
  generalize truthyStr new_tier0 = TN
  generalize truthyStr orgaddr = AO
  generalize truthyStr newaddr = AN
  generalize decide (org_tier0 ≠ new_tier0) = DT
  generalize decide (orgaddr ≠ newaddr) = DA
  revert TO TN AO AN DT DA org_snat new_snat
  decide

/-- C9: the planner never sets add_service_router and remove_service_router
together, and whenever a load balancer or a firewall exists on the router
both service-router flags are false. -/
theorem C9_service_router_flags
    (org_tier0 orgaddr : Option String) (org_snat : Bool)
    (new_tier0 newaddr : Option String) (new_snat : Bool)
    (lb_exist fw_exist : Bool) :
    ((get_update_router_gw_actions
        org_tier0 orgaddr org_snat new_tier0 newaddr new_snat
        lb_exist fw_exist).add_service_router &&
     (get_update_router_gw_actions
        org_tier0 orgaddr org_snat new_tier0 newaddr new_snat
        lb_exist fw_exist).remove_service_router) = false ∧
    ((lb_exist || fw_exist) = true →
      (get_update_router_gw_actions
          org_tier0 orgaddr org_snat new_tier0 newaddr new_snat
          lb_exist fw_exist).add_service_router = false ∧
      (get_update_router_gw_actions
          org_tier0 orgaddr org_snat new_tier0 newaddr new_snat
          lb_exist fw_exist).remove_service_router = false) := by
  simp only [get_update_router_gw_actions]
  generalize truthyStr orgaddr = AO
  generalize truthyStr newaddr = AN
  revert AO AN org_snat new_snat lb_exist fw_exist
  decide

/-- C9 witness: concrete instantiation, with a load balancer present. -/
theorem C9_service_router_flags_witness :
    (get_update_router_gw_actions
        (some "T0-A") (some "10.0.0.5") true
        none none false
        true false).add_service_router = false ∧
    (get_update_router_gw_actions
        (some "T0-A") (some "10.0.0.5") true
        none none false
        true false).remove_service_router = false :=
  (C9_service_router_flags
      (some "T0-A") (some "10.0.0.5") true none none false true false).2
    (by decide)

/-!
## Theorems about the Segment Allocator and the vlan Binding Planner
-/

/-- Helper: used_ids_in_range is a subset of the candidate set. -/
theorem usedIdsInRange_subset (bound_ids : List Nat) (cand : Finset Nat) :
    usedIdsInRange bound_ids cand ⊆ cand := by
  intro x hx
  simp only [usedIdsInRange, List.mem_toFinset, List.mem_filter,
    decide_eq_true_eq] at hx
  exact hx.2

/-- Helper: the symmetric difference taken by the source equals the plain
set difference, because the used set is a subset of the candidate set. -/
theorem freeVlanIds_eq_sdiff (bound_ids : List Nat)
    (vlan_ranges : List (Nat × Nat)) :
    freeVlanIds bound_ids vlan_ranges =
      vlanCandidateIds vlan_ranges \
        usedIdsInRange bound_ids (vlanCandidateIds vlan_ranges) := by
  have h := usedIdsInRange_subset bound_ids (vlanCandidateIds vlan_ranges)
  simp [freeVlanIds, Finset.sdiff_eq_empty_iff_subset.mpr h]

/-- Helper: membership in a foldl of interval unions, with accumulator. -/
theorem mem_foldl_union (l : List (Nat × Nat)) (acc : Finset Nat) (v : Nat) :
    v ∈ l.foldl (fun s r => s ∪ Finset.Icc r.1 r.2) acc ↔
      v ∈ acc ∨ ∃ r ∈ l, v ∈ Finset.Icc r.1 r.2 := by
  induction l generalizing acc with
  | nil => simp
  | cons hd tl ih =>
    simp only [List.foldl_cons, ih, Finset.mem_union, List.mem_cons]
    constructor
    · rintro (⟨hv | hv⟩ | ⟨r, hr, hv⟩)
      · exact Or.inl hv
      · exact Or.inr ⟨hd, Or.inl rfl, hv⟩
      · exact Or.inr ⟨r, Or.inr hr, hv⟩
    · rintro (hv | ⟨r, hr | hr, hv⟩)
      · exact Or.inl (Or.inl hv)
      · exact Or.inl (Or.inr (hr ▸ hv))
      · exact Or.inr ⟨r, hr, hv⟩

/-- Helper: membership in a foldl of appended range enumerations. -/
theorem mem_foldl_append (l : List (Nat × Nat)) (acc : List Nat) (v : Nat) :
    v ∈ l.foldl (fun t r => t ++ List.range' r.1 (r.2 + 1 - r.1)) acc ↔
      v ∈ acc ∨ ∃ r ∈ l, v ∈ List.range' r.1 (r.2 + 1 - r.1) := by
  induction l generalizing acc with
  | nil => simp
  | cons hd tl ih =>
    simp only [List.foldl_cons, ih, List.mem_append, List.mem_cons]
    constructor
    · rintro (⟨hv | hv⟩ | ⟨r, hr, hv⟩)
      · exact Or.inl hv
      · exact Or.inr ⟨hd, Or.inl rfl, hv⟩
      · exact Or.inr ⟨r, Or.inr hr, hv⟩
    · rintro (hv | ⟨r, hr | hr, hv⟩)
      · exact Or.inl (Or.inl hv)
      · exact Or.inl (Or.inr (hr ▸ hv))
      · exact Or.inr ⟨r, hr, hv⟩

/-- Helper: a bounded range enumeration matches the closed interval. -/
theorem mem_range_iff_mem_Icc (a b v : Nat) :
    v ∈ List.range' a (b + 1 - a) ↔ v ∈ Finset.Icc a b := by
  rw [List.mem_range'_1, Finset.mem_Icc]
  omega

/-- Helper: the scan list enumerates exactly the candidate set. -/
theorem mem_vlanCandidateScan (vlan_ranges : List (Nat × Nat)) (v : Nat) :
    v ∈ vlanCandidateScan vlan_ranges ↔ v ∈ vlanCandidateIds vlan_ranges := by
  unfold vlanCandidateScan vlanCandidateIds
  by_cases h : vlan_ranges.isEmpty
  · simp only [h, if_true]
    exact mem_range_iff_mem_Icc MIN_VLAN_TAG MAX_VLAN_TAG v
  · simp only [h, Bool.false_eq_true, if_false]
    rw [mem_foldl_union, mem_foldl_append]
    simp only [List.not_mem_nil, Finset.not_mem_empty, false_or]
    constructor
    · rintro ⟨r, hr, hv⟩
      exact ⟨r, hr, (mem_range_iff_mem_Icc r.1 r.2 v).1 hv⟩
    · rintro ⟨r, hr, hv⟩
      exact ⟨r, hr, (mem_range_iff_mem_Icc r.1 r.2 v).2 hv⟩

/-- Helper: a successfully allocated tag belongs to the free set. -/
theorem generate_segment_id_mem_free {bound_ids : List Nat}
    {vlan_ranges : List (Nat × Nat)} {t : Nat}
    (h : generate_segment_id bound_ids vlan_ranges = some t) :
    t ∈ freeVlanIds bound_ids vlan_ranges := by
  unfold generate_segment_id at h
  have := List.find?_some h
  exact of_decide_eq_true this

/-- Helper: allocation fails exactly when the free set is empty. -/
theorem generate_segment_id_none_iff (bound_ids : List Nat)
    (vlan_ranges : List (Nat × Nat)) :
    generate_segment_id bound_ids vlan_ranges = none ↔
      freeVlanIds bound_ids vlan_ranges = ∅ := by
  unfold generate_segment_id
  rw [List.find?_eq_none]
  constructor
  · intro h
    by_contra hne
    obtain ⟨v, hv⟩ := Finset.nonempty_iff_ne_empty.2 hne
    have hcand : v ∈ vlanCandidateIds vlan_ranges := by
      rw [freeVlanIds_eq_sdiff] at hv
      exact (Finset.mem_sdiff.1 hv).1
    exact h v ((mem_vlanCandidateScan vlan_ranges v).2 hcand)
      (decide_eq_true hv)
  · intro h v _ hv
    rw [h] at hv
    have := of_decide_eq_true hv
    simp at this

/-- Helper: every element of the free set is a candidate tag not bound to
the physical network. -/
theorem mem_freeVlanIds_props {bound_ids : List Nat}
    {vlan_ranges : List (Nat × Nat)} {t : Nat}
    (hfree0 : t ∈ freeVlanIds bound_ids vlan_ranges) :
    t ∈ vlanCandidateIds vlan_ranges ∧ t ∉ bound_ids := by
  have hfree := hfree0
  rw [freeVlanIds_eq_sdiff] at hfree
  have hcand : t ∈ vlanCandidateIds vlan_ranges :=
    (Finset.mem_sdiff.1 hfree).1
  have hnotused :
      t ∉ usedIdsInRange bound_ids (vlanCandidateIds vlan_ranges) :=
    (Finset.mem_sdiff.1 hfree).2
  refine ⟨hcand, fun hb => hnotused ?_⟩
  simp only [usedIdsInRange, List.mem_toFinset, List.mem_filter,
    decide_eq_true_eq]
  exact ⟨hb, hcand⟩

/-- C3: the allocator only returns tags inside the candidate set (configured
ranges, or the full legal range when none are configured) that are not bound
to the physical network in the Binding Store, and it fails with
NoNetworkAvailable exactly when the candidate set minus the used set is
empty.  The last conjunct states the same soundness for every element of
the free set free_ids, so the result is independent of which element of the
unordered Python set free_ids[0] happens to pick. -/
theorem C3_generate_segment_id_sound (bound_ids : List Nat)
    (vlan_ranges : List (Nat × Nat)) :
    (∀ t, generate_segment_id bound_ids vlan_ranges = some t →
        t ∈ vlanCandidateIds vlan_ranges ∧ t ∉ bound_ids) ∧
    (generate_segment_id bound_ids vlan_ranges = none ↔
        vlanCandidateIds vlan_ranges \
          usedIdsInRange bound_ids (vlanCandidateIds vlan_ranges) = ∅) ∧
    (∀ t ∈ freeVlanIds bound_ids vlan_ranges,
        t ∈ vlanCandidateIds vlan_ranges ∧ t ∉ bound_ids) := by
  refine ⟨?_, ?_, ?_⟩
  · intro t ht
    exact mem_freeVlanIds_props (generate_segment_id_mem_free ht)
  · rw [generate_segment_id_none_iff, freeVlanIds_eq_sdiff]
  · intro t ht
    exact mem_freeVlanIds_props ht

/-- C3 witness: the concrete scenario of the spec, physical network with
range [100, 102] and tag 100 already bound: the allocator returns 101, which
is inside the range and unbound. -/
theorem C3_generate_segment_id_sound_witness :
    generate_segment_id [100] [(100, 102)] = some 101 ∧
    101 ∈ vlanCandidateIds [(100, 102)] ∧ 101 ∉ [100] :=
  ⟨by decide,
   ((C3_generate_segment_id_sound [100] [(100, 102)]).1 101 (by decide)).1,
   ((C3_generate_segment_id_sound [100] [(100, 102)]).1 101 (by decide)).2⟩

/-- C7 counterexample: a vlan request with the explicit segmentation id 0,
which lies outside [MIN_VLAN_TAG, MAX_VLAN_TAG], is not rejected: the planner
auto-allocates a tag (here 101) instead. -/
theorem C7_counterexample :
    (0 : Nat) < MIN_VLAN_TAG ∧
    validate_provider_create_vlan (some 0) (some "pnet1") "def-vlan-tz"
        [("pnet1", [(100, 102)])] [⟨"pnet1", 100⟩] false =
      .ok ⟨"pnet1", some 101, some 101⟩ := by
  constructor <;> decide

/-- C7 (amended): for a vlan request with transparent vlan off, an explicit
nonzero segmentation id outside [MIN_VLAN_TAG, MAX_VLAN_TAG] is rejected, an
explicit in-range id already bound on the physical network fails with
VlanIdInUse, an absent segmentation id invokes the Segment Allocator (whose
NoNetworkAvailable is propagated), the physical network defaults to the
default VLAN transport zone, and an explicit id 0 is treated like an absent
id (not rejected as out of range). -/
theorem C7_validate_provider_vlan (seg_id : Option Nat)
    (phys : Option String) (default_vlan_tz : String)
    (network_vlans : List (String × List (Nat × Nat)))
    (store : List NetworkBinding) :
    (∀ v, seg_id = some v → v ≠ 0 → is_valid_vlan_tag v = false →
        validate_provider_create_vlan seg_id phys default_vlan_tz
          network_vlans store false = .error .outOfRange) ∧
    (∀ v, seg_id = some v → v ≠ 0 → is_valid_vlan_tag v = true →
        get_network_bindings_by_vlanid_and_physical_net store v
          (phys.getD default_vlan_tz) ≠ [] →
        validate_provider_create_vlan seg_id phys default_vlan_tz
          network_vlans store false = .error .vlanIdInUse) ∧
    ((seg_id = none ∨ seg_id = some 0) →
        validate_provider_create_vlan seg_id phys default_vlan_tz
            network_vlans store false =
          match generate_segment_id
              (get_network_bindings_by_phy_uuid store
                (phys.getD default_vlan_tz))
              (lookupVlanRanges network_vlans
                (phys.getD default_vlan_tz)) with
          | none => .error .noNetworkAvailable
          | some tag =>
              .ok ⟨phys.getD default_vlan_tz, some tag, some tag⟩) ∧
    (∀ plan, validate_provider_create_vlan seg_id phys default_vlan_tz
        network_vlans store false = .ok plan →
        plan.physical_net = phys.getD default_vlan_tz) := by
  refine ⟨?_, ?_, ?_, ?_⟩
  · intro v hv hv0 hrange
    subst hv
    simp [validate_provider_create_vlan, truthyNat, hv0, hrange]
  · intro v hv hv0 hrange hbound
    subst hv
    simp [validate_provider_create_vlan, truthyNat, hv0, hrange,
      List.isEmpty_iff, hbound]
  · intro hseg
    rcases hseg with h | h <;> subst h <;>
      simp [validate_provider_create_vlan, truthyNat]
  · intro plan hplan
    simp only [validate_provider_create_vlan, Bool.and_false,
      Bool.false_eq_true, if_false, Bool.not_false, if_true] at hplan
    by_cases h0 : truthyNat seg_id = true
    · simp only [h0, Bool.not_true, Bool.false_eq_true, if_false] at hplan
      by_cases hval : is_valid_vlan_tag (seg_id.getD 0) = true
      · simp only [hval, Bool.not_true, Bool.false_eq_true, if_false] at hplan
        by_cases hb : (get_network_bindings_by_vlanid_and_physical_net store
            (seg_id.getD 0) (phys.getD default_vlan_tz)).isEmpty = true
        · simp only [hb, Bool.not_true, Bool.false_eq_true, if_false] at hplan
          cases hplan
          rfl
        · simp only [Bool.not_eq_true] at hb
          simp only [hb, Bool.not_false, if_true] at hplan
          cases hplan
      · simp only [Bool.not_eq_true] at hval
        simp only [hval, Bool.not_false, if_true] at hplan
        cases hplan
    · simp only [Bool.not_eq_true] at h0
      simp only [h0, Bool.not_false, if_true] at hplan
      cases hgen : generate_segment_id
          (get_network_bindings_by_phy_uuid store (phys.getD default_vlan_tz))
          (lookupVlanRanges network_vlans (phys.getD default_vlan_tz)) with
      | none => rw [hgen] at hplan; cases hplan
      | some tag => rw [hgen] at hplan; cases hplan; rfl

/-- C7 witness: an explicit nonzero out-of-range id (5000) is rejected as
out of range. -/
theorem C7_validate_provider_vlan_witness :
    validate_provider_create_vlan (some 5000) none "def-vlan-tz" [] []
        false = .error .outOfRange :=
  (C7_validate_provider_vlan (some 5000) none "def-vlan-tz" [] []).1
    5000 rfl (by decide) (by decide)

/-- C10: a vlan request with the explicit segmentation id 0 behaves exactly
like a request without a segmentation id: the planner invokes the allocator
and overwrites the request segmentation_id with the allocated tag (or fails
with NoNetworkAvailable when the pool is exhausted). -/
theorem C10_segmentation_id_zero_auto_allocates
    (phys : Option String) (default_vlan_tz : String)
    (network_vlans : List (String × List (Nat × Nat)))
    (store : List NetworkBinding) :
    validate_provider_create_vlan (some 0) phys default_vlan_tz
        network_vlans store false =
      validate_provider_create_vlan none phys default_vlan_tz
        network_vlans store false ∧
    validate_provider_create_vlan (some 0) phys default_vlan_tz
        network_vlans store false =
      match generate_segment_id
          (get_network_bindings_by_phy_uuid store
            (phys.getD default_vlan_tz))
          (lookupVlanRanges network_vlans (phys.getD default_vlan_tz)) with
      | none => .error .noNetworkAvailable
      | some tag => .ok ⟨phys.getD default_vlan_tz, some tag, some tag⟩ := by
  constructor <;> simp [validate_provider_create_vlan, truthyNat]

/-!
## Theorems about the Port Invariant Validator
-/

/-- Helper: a sequence of checks errors exactly when one of them errors. -/
theorem isError_exceptSeq {ε : Type} (a b : Except ε Unit) :
    isError (exceptSeq a b) = (isError a || isError b) := by
  cases a <;> simp [exceptSeq, isError]

/-- C5 counterexample, in both directions the claim fails: create-port
validation accepts a DHCP-owned (trusted) port that explicitly requests
port_security_enabled=True and mac_learning_enabled=True (the trusted-port
check runs only on update), and update-port validation accepts a request for
port_security_enabled=True on a service-owned (neutron:LOADBALANCERV2) port,
because is_port_trusted covers only network:-prefixed owners, not
service-owned ones. -/
theorem C5_counterexample :
    is_port_trusted "network:dhcp" = true ∧
    validate_create_port false true true
      ⟨some "network:dhcp", some true, some true, none, none, none,
        some true⟩ = .ok () ∧
    validate_update_port false true true "neutron:LOADBALANCERV2"
      ⟨none, some true, none, none, none, none, none⟩ = .ok () := by
  refine ⟨by decide, by decide, by decide⟩

/-- C5 (amended): update-port validation always rejects a request that asks
for port_security_enabled=true or mac_learning_enabled=true on a port whose
effective device owner is trusted (network:-prefixed: router-, DHCP- and
floating-ip-owned), for every oracle answer of the external collaborators;
create-port validation performs no such check, and neutron:-owned service
ports are outside the trusted set (see the counterexample). -/
theorem C5_trusted_port_update_rejected
    (is_external_net qos_policy_ok max_ips_ok : Bool)
    (orig_device_owner : String) (pd : PortData)
    (htrusted : is_port_trusted (pd.device_owner.getD orig_device_owner) =
      true)
    (hreq : pd.port_security_enabled = some true ∨
      pd.mac_learning_enabled = some true) :
    isError (validate_update_port is_external_net qos_policy_ok max_ips_ok
      orig_device_owner pd) = true := by
  have hsec : isError (assert_on_port_sec_change pd
      (pd.device_owner.getD orig_device_owner)) = true := by
    rcases hreq with h | h
    · simp [assert_on_port_sec_change, htrusted, h, isError]
    · cases hps : pd.port_security_enabled == some true <;>
        simp [assert_on_port_sec_change, htrusted, h, hps, isError]
  simp [validate_update_port, isError_exceptSeq, hsec]

/-- C5 witness: an update asking port_security_enabled=true on a
router-interface port is rejected. -/
theorem C5_trusted_port_update_rejected_witness :
    isError (validate_update_port false true true
      "network:router_interface"
      ⟨none, some true, none, none, none, none, none⟩) = true :=
  C5_trusted_port_update_rejected false true true
    "network:router_interface"
    ⟨none, some true, none, none, none, none, none⟩
    (by decide) (Or.inl rfl)

/-- C6 counterexample: with port_security false and sec_grp_updated false
the rollback only restores the port attributes: although the original
address pairs differ from the updated ones, no address-pair operation and no
security-group operation is performed, so the rollback is not unconditional
in its inputs. -/
theorem C6_counterexample :
    (some ["10.0.0.1"] : Option (List String)) ≠ some [] ∧
    revert_neutron_port_update false false (some ["10.0.0.1"]) (some []) =
      [RevertAction.updatePortToOriginal] ∧
    RevertAction.deleteAllowedAddressPairs ∉
      revert_neutron_port_update false false (some ["10.0.0.1"]) (some []) ∧
    RevertAction.updateSecurityGroupsOnPort ∉
      revert_neutron_port_update false false (some ["10.0.0.1"]) (some []) :=
  ⟨by decide, by decide, by decide, by decide⟩

/-- C6 (amended): the rollback always restores the original port attributes
first; it touches the address pairs only when its port_security input is
true (deleting the current pairs when they differ and re-creating the
original ones when non-empty), and it restores the security-group bindings
exactly when its sec_grp_updated input is true. -/
theorem C6_revert_conditional_restoration
    (port_security sec_grp_updated : Bool)
    (orig_pairs updated_pairs : Option (List String)) :
    (revert_neutron_port_update port_security sec_grp_updated orig_pairs
        updated_pairs).head? = some RevertAction.updatePortToOriginal ∧
    (port_security = false →
      RevertAction.deleteAllowedAddressPairs ∉
        revert_neutron_port_update port_security sec_grp_updated orig_pairs
          updated_pairs ∧
      ∀ pairs, RevertAction.createAllowedAddressPairs pairs ∉
        revert_neutron_port_update port_security sec_grp_updated orig_pairs
          updated_pairs) ∧
    (port_security = true → truthyList orig_pairs = true →
      RevertAction.createAllowedAddressPairs (orig_pairs.getD []) ∈
        revert_neutron_port_update port_security sec_grp_updated orig_pairs
          updated_pairs) ∧
    (port_security = true → orig_pairs ≠ updated_pairs →
      RevertAction.deleteAllowedAddressPairs ∈
        revert_neutron_port_update port_security sec_grp_updated orig_pairs
          updated_pairs) ∧
    (RevertAction.updateSecurityGroupsOnPort ∈
        revert_neutron_port_update port_security sec_grp_updated orig_pairs
          updated_pairs ↔ sec_grp_updated = true) := by
  cases port_security <;> cases sec_grp_updated <;>
    by_cases he : orig_pairs = updated_pairs <;>
    by_cases ht : truthyList orig_pairs = true <;>
    simp_all [revert_neutron_port_update]

/-- C6 witness: with port_security true and sec_grp_updated true the
original address pairs are re-created and the security groups restored. -/
theorem C6_revert_conditional_restoration_witness :
    RevertAction.createAllowedAddressPairs ["10.0.0.1"] ∈
      revert_neutron_port_update true true (some ["10.0.0.1"]) none ∧
    RevertAction.deleteAllowedAddressPairs ∈
      revert_neutron_port_update true true (some ["10.0.0.1"]) none :=
  ⟨(C6_revert_conditional_restoration true true (some ["10.0.0.1"])
      none).2.2.1 rfl (by decide),
   (C6_revert_conditional_restoration true true (some ["10.0.0.1"])
      none).2.2.2.1 rfl (by decide)⟩

/-!
## Theorems about the DHCP Provisioning Saga
-/

/-- Helper: disabling DHCP on a network without a service binding changes
nothing. -/
theorem disable_native_dhcp_noop {st : DhcpSt} {network_id : String}
    (h : get_nsx_service_binding st network_id = none) :
    disable_native_dhcp st network_id = st := by
  unfold disable_native_dhcp
  rw [h]

/-- C1: when the backend DHCP-server create, the backend logical-port
create, or either mapping insert of the enable saga raises, the error
propagates (the outcome carries an error) and the compensated state has no
DHCP service binding for the network, does not contain the fresh local DHCP
port, and contains neither the backend DHCP server nor the backend logical
port: no orphaned backend resource survives. -/
theorem C1_enable_dhcp_compensation (f : DhcpFail)
    (network_id port_id server_id nsx_port_id nid : String)
    (existing_ports : List String) (st0 : DhcpSt)
    (hbind : get_nsx_service_binding st0 network_id = none)
    (hfail : f.serverCreateFails = true ∨ f.logicalPortCreateFails = true ∨
      f.portMappingFails = true ∨ f.serviceBindingFails = true)
    (hport : port_id ∉ st0.neutronPorts)
    (hserver : server_id ∉ st0.dhcpServers)
    (hnsxport : nsx_port_id ∉ st0.logicalPorts) :
    let out := enable_native_dhcp f network_id port_id server_id nsx_port_id
      existing_ports (some nid) st0
    out.err.isSome = true ∧
    get_nsx_service_binding out.st network_id = none ∧
    port_id ∉ out.st.neutronPorts ∧
    server_id ∉ out.st.dhcpServers ∧
    nsx_port_id ∉ out.st.logicalPorts := by
  intro out
  have hnoop := disable_native_dhcp_noop hbind
  cases hs : f.serverCreateFails <;>
    cases hl : f.logicalPortCreateFails <;>
    cases hm : f.portMappingFails <;>
    cases hb2 : f.serviceBindingFails <;>
    simp_all [out, enable_native_dhcp, cleanup_port, List.mem_filter,
      get_nsx_service_binding] <;>
    exact hbind

/-- C1 witness: backend DHCP-server creation fails on an empty store: the
outcome is an error, with no binding, port, server or logical port left. -/
theorem C1_enable_dhcp_compensation_witness :
    let out := enable_native_dhcp ⟨true, false, false, false, none⟩ "net1"
      "port1" "srv1" "lp1" [] (some "nsxnet1") ⟨[], [], [], [], [], []⟩
    out.err.isSome = true ∧
    get_nsx_service_binding out.st "net1" = none ∧
    "port1" ∉ out.st.neutronPorts ∧
    "srv1" ∉ out.st.dhcpServers ∧
    "lp1" ∉ out.st.logicalPorts :=
  C1_enable_dhcp_compensation ⟨true, false, false, false, none⟩ "net1"
    "port1" "srv1" "lp1" "nsxnet1" [] ⟨[], [], [], [], [], []⟩
    (by decide) (Or.inl rfl) (by decide) (by decide) (by decide)

/-- C8: when every step through the mapping inserts succeeds and only the
step-7 per-port binding loop raises, the exception is swallowed: the saga
returns without error and the DHCP service binding, the backend DHCP
server, the local DHCP port and the backend logical port all remain in
place; any failure of the earlier steps 4-6, by contrast, always surfaces
as an error. -/
theorem C8_dhcp_binding_failure_nonfatal (k : Nat)
    (network_id port_id server_id nsx_port_id nid : String)
    (existing_ports : List String) (st0 : DhcpSt)
    (hbind : get_nsx_service_binding st0 network_id = none) :
    let out := enable_native_dhcp ⟨false, false, false, false, some k⟩
      network_id port_id server_id nsx_port_id existing_ports (some nid) st0
    out.err = none ∧
    get_nsx_service_binding out.st network_id =
      some (port_id, server_id) ∧
    server_id ∈ out.st.dhcpServers ∧
    port_id ∈ out.st.neutronPorts ∧
    nsx_port_id ∈ out.st.logicalPorts ∧
    (∀ g : DhcpFail,
      (g.serverCreateFails = true ∨ g.logicalPortCreateFails = true ∨
        g.portMappingFails = true ∨ g.serviceBindingFails = true) →
      (enable_native_dhcp g network_id port_id server_id nsx_port_id
        existing_ports (some nid) st0).err ≠ none) := by
  intro out
  have hnoop := disable_native_dhcp_noop hbind
  refine ⟨?_, ?_, ?_, ?_, ?_, ?_⟩
  · simp [out, enable_native_dhcp, hnoop]
  · simp [out, enable_native_dhcp, hnoop, get_nsx_service_binding]
  · simp [out, enable_native_dhcp, hnoop]
  · simp [out, enable_native_dhcp, hnoop]
  · simp [out, enable_native_dhcp, hnoop]
  · intro g hg
    cases hs : g.serverCreateFails <;>
      cases hl : g.logicalPortCreateFails <;>
      cases hm : g.portMappingFails <;>
      cases hb2 : g.serviceBindingFails <;>
      simp_all [enable_native_dhcp]

/-- C8 witness: only the per-port binding step fails (at the first existing
port): no error is reported and the server, binding and ports survive. -/
theorem C8_dhcp_binding_failure_nonfatal_witness :
    let out := enable_native_dhcp ⟨false, false, false, false, some 0⟩
      "net1" "port1" "srv1" "lp1" ["p0"] (some "nsxnet1")
      ⟨[], [], [], [], [], []⟩
    out.err = none ∧
    get_nsx_service_binding out.st "net1" = some ("port1", "srv1") ∧
    "srv1" ∈ out.st.dhcpServers ∧
    "port1" ∈ out.st.neutronPorts ∧
    "lp1" ∈ out.st.logicalPorts ∧
    (∀ g : DhcpFail,
      (g.serverCreateFails = true ∨ g.logicalPortCreateFails = true ∨
        g.portMappingFails = true ∨ g.serviceBindingFails = true) →
      (enable_native_dhcp g "net1" "port1" "srv1" "lp1" ["p0"]
        (some "nsxnet1") ⟨[], [], [], [], [], []⟩).err ≠ none) :=
  C8_dhcp_binding_failure_nonfatal 0 "net1" "port1" "srv1" "lp1" "nsxnet1"
    ["p0"] ⟨[], [], [], [], [], []⟩ (by decide)

end VmwareNsx
